import Mathlib

/-!
Verification of `scripts/setup.py`: a single-pass generator that reads a
parsed YAML configuration and produces `config/.env` and
`docker/docker-compose.yml`, then ensures two data directories exist.

The embedding below translates the script directly:
* `Yaml` models the nested mapping returned by `yaml.safe_load`;
* subscripting `config[k]` becomes `Yaml.getKey` (raising `KeyError` /
  `TypeError` as Python does, modelled in `Except PyErr`);
* the two f-string templates become `envLines` / `composeLines`
  (the generated file is the newline-joined list, exactly the source
  literal line by line);
* `main` with its `try`/`except` ladder becomes the total function `run`
  over an explicit file-system state `FS`, emitting the printed lines and
  file writes as an `Event` trace.
-/

deriving instance DecidableEq for Except

namespace SparkSetup

/-- Python exceptions distinguished by `main`'s two `except` clauses:
`FileNotFoundError` versus every other `Exception`. -/
inductive PyErr where
  | fileNotFound : String → PyErr
  | exc : String → PyErr
deriving DecidableEq

mutual
/-- A node of the parsed YAML document: scalar string, scalar int, or a
nested mapping. This is what `yaml.safe_load` returns for the
configuration schema of this repository. -/
inductive Yaml where
  | str : String → Yaml
  | int : Int → Yaml
  | map : YamlMap → Yaml
deriving DecidableEq

/-- Association list of a YAML mapping, in document order (Python dicts
keep insertion order; the schema has distinct keys). -/
inductive YamlMap where
  | nil : YamlMap
  | cons : String → Yaml → YamlMap → YamlMap
deriving DecidableEq
end

mutual
/-- Python `str()` of a loaded YAML value, as used by the f-string
substitutions: a string renders as itself, an int via decimal digits,
and a dict via its repr. -/
def Yaml.render : Yaml → String
  | .str s => s
  | .int n => toString n
  | .map m => "\x7b" ++ YamlMap.renderEntries m ++ "\x7d"

/-- Python `repr()` of a loaded YAML value (used for values nested inside
a dict's `str()`): strings are quoted. -/
def Yaml.renderRepr : Yaml → String
  | .str s => "\x27" ++ s ++ "\x27"
  | .int n => toString n
  | .map m => "\x7b" ++ YamlMap.renderEntries m ++ "\x7d"

/-- Comma-separated `repr(key): repr(value)` entries of a dict's `str()`. -/
def YamlMap.renderEntries : YamlMap → String
  | .nil => ""
  | .cons k v .nil => "\x27" ++ k ++ "\x27: " ++ v.renderRepr
  | .cons k v (.cons k2 v2 rest) =>
      "\x27" ++ k ++ "\x27: " ++ v.renderRepr ++ ", " ++
        YamlMap.renderEntries (.cons k2 v2 rest)
end

/-- First binding of a key in a mapping (Python dict lookup; keys are
unique in the schema). -/
def YamlMap.find? : YamlMap → String → Option Yaml
  | .nil, _ => none
  | .cons k v rest, key => if k = key then some v else rest.find? key

/-- Python subscript `value[key]`: a dict either yields the entry or
raises `KeyError(key)` (whose `str()` is the quoted key); subscripting a
scalar raises a `TypeError`. -/
def Yaml.getKey : Yaml → String → Except PyErr Yaml
  | .map m, key =>
      match m.find? key with
      | some v => .ok v
      | none => .error (.exc ("\x27" ++ key ++ "\x27"))
  | .str _, _ => .error (.exc "string indices must be integers")
  | .int _, _ => .error (.exc "\x27int\x27 object is not subscriptable")

/-- Chained subscripts `config[k1][k2]...`; the first failing subscript
raises, exactly as in the Python expression. -/
def Yaml.getPath : Yaml → List String → Except PyErr Yaml
  | y, [] => .ok y
  | y, k :: ks =>
      match y.getKey k with
      | .ok v => v.getPath ks
      | .error e => .error e

/-- The sixteen string values substituted into the `.env` f-string of
`generate_env_file`, in the template's textual (evaluation) order. -/
structure EnvValues where
  sparkVersion : String
  masterMemory : String
  masterCores : String
  workerMemory : String
  workerCores : String
  workerInstances : String
  executorMemory : String
  executorCores : String
  pythonVersion : String
  jupyterPort : String
  masterUiPort : String
  masterPort : String
  workerUiPort : String
  notebooksPath : String
  dataPath : String
  networkName : String
deriving DecidableEq

/-- The sixteen configuration paths read by the `.env` template, in the
order the f-string evaluates them. -/
def requiredPaths : List (List String) :=
  [ ["spark", "version"]
  , ["spark", "master", "memory"]
  , ["spark", "master", "cores"]
  , ["spark", "worker", "memory"]
  , ["spark", "worker", "cores"]
  , ["spark", "worker", "instances"]
  , ["spark", "executor", "memory"]
  , ["spark", "executor", "cores"]
  , ["python", "version"]
  , ["containers", "jupyter", "port"]
  , ["containers", "spark_master", "ui_port"]
  , ["containers", "spark_master", "port"]
  , ["containers", "spark_worker", "ui_port"]
  , ["volumes", "notebooks_path"]
  , ["volumes", "data_path"]
  , ["network", "name"]
  ]

/-- Evaluation of the sixteen `config[...]` substitutions of the `.env`
f-string, left to right; the first missing key aborts with its
`KeyError`, before anything is written. -/
def extractValues (c : Yaml) : Except PyErr EnvValues := do
  let sparkVersion := (← c.getPath ["spark", "version"]).render
  let masterMemory := (← c.getPath ["spark", "master", "memory"]).render
  let masterCores := (← c.getPath ["spark", "master", "cores"]).render
  let workerMemory := (← c.getPath ["spark", "worker", "memory"]).render
  let workerCores := (← c.getPath ["spark", "worker", "cores"]).render
  let workerInstances := (← c.getPath ["spark", "worker", "instances"]).render
  let executorMemory := (← c.getPath ["spark", "executor", "memory"]).render
  let executorCores := (← c.getPath ["spark", "executor", "cores"]).render
  let pythonVersion := (← c.getPath ["python", "version"]).render
  let jupyterPort := (← c.getPath ["containers", "jupyter", "port"]).render
  let masterUiPort := (← c.getPath ["containers", "spark_master", "ui_port"]).render
  let masterPort := (← c.getPath ["containers", "spark_master", "port"]).render
  let workerUiPort := (← c.getPath ["containers", "spark_worker", "ui_port"]).render
  let notebooksPath := (← c.getPath ["volumes", "notebooks_path"]).render
  let dataPath := (← c.getPath ["volumes", "data_path"]).render
  let networkName := (← c.getPath ["network", "name"]).render
  pure ⟨sparkVersion, masterMemory, masterCores, workerMemory, workerCores,
    workerInstances, executorMemory, executorCores, pythonVersion,
    jupyterPort, masterUiPort, masterPort, workerUiPort, notebooksPath,
    dataPath, networkName⟩

/-- The lines of the generated `config/.env` file, transcribed from the
f-string of `generate_env_file` line by line. -/
def envLines (v : EnvValues) : List String :=
  [ "# Auto-generated from config/config.yaml"
  , "# Spark Configuration"
  , "SPARK_VERSION=" ++ v.sparkVersion
  , "SPARK_MASTER_MEMORY=" ++ v.masterMemory
  , "SPARK_MASTER_CORES=" ++ v.masterCores
  , "SPARK_WORKER_MEMORY=" ++ v.workerMemory
  , "SPARK_WORKER_CORES=" ++ v.workerCores
  , "SPARK_WORKER_INSTANCES=" ++ v.workerInstances
  , "SPARK_EXECUTOR_MEMORY=" ++ v.executorMemory
  , "SPARK_EXECUTOR_CORES=" ++ v.executorCores
  , ""
  , "# Python Configuration"
  , "PYTHON_VERSION=" ++ v.pythonVersion
  , ""
  , "# Container Ports"
  , "JUPYTER_PORT=" ++ v.jupyterPort
  , "SPARK_MASTER_UI_PORT=" ++ v.masterUiPort
  , "SPARK_MASTER_PORT=" ++ v.masterPort
  , "SPARK_WORKER_UI_PORT=" ++ v.workerUiPort
  , ""
  , "# Volume Paths"
  , "NOTEBOOKS_PATH=" ++ v.notebooksPath
  , "DATA_PATH=" ++ v.dataPath
  , ""
  , "# Network"
  , "NETWORK_NAME=" ++ v.networkName
  ]

/-- Contents of `config/.env`: the template lines joined by newlines,
with the template's trailing newline. -/
def env_content (v : EnvValues) : String :=
  String.intercalate "\n" (envLines v) ++ "\n"

/-- The string built (and then written) by `generate_env_file`. -/
def generate_env_content (c : Yaml) : Except PyErr String :=
  (extractValues c).map env_content

/-- The lines of the generated `docker/docker-compose.yml`, transcribed
from the f-string of `generate_docker_compose` line by line. Only
`network_name` is substituted; every `$\x7b...\x7d` below is literal text
(the Python source writes them as escaped `\x7b\x7b...\x7d\x7d`). -/
def composeLines (network_name : String) : List String :=
  [ "# Configuration-driven Spark environment"
  , "services:"
  , "  spark-master:"
  , "    image: bitnami/spark:$\x7bSPARK_VERSION:-3.5.0\x7d"
  , "    container_name: spark-master"
  , "    environment:"
  , "      - SPARK_MODE=master"
  , "      - SPARK_RPC_AUTHENTICATION_ENABLED=no"
  , "      - SPARK_RPC_ENCRYPTION_ENABLED=no"
  , "      - SPARK_LOCAL_STORAGE_ENCRYPTION_ENABLED=no"
  , "      - SPARK_SSL_ENABLED=no"
  , "      - SPARK_USER=spark"
  , "    ports:"
  , "      - \"$\x7bSPARK_MASTER_UI_PORT:-8080\x7d:8080\""
  , "      - \"$\x7bSPARK_MASTER_PORT:-7077\x7d:7077\""
  , "    volumes:"
  , "      - ../$\x7bNOTEBOOKS_PATH:-./notebooks\x7d:/opt/notebooks"
  , "      - ../$\x7bDATA_PATH:-./data\x7d:/opt/data"
  , "      - ../$\x7bDATA_PATH:-./data\x7d:/home/jovyan/data"
  , "    networks:"
  , "      - " ++ network_name
  , ""
  , "  spark-worker:"
  , "    image: bitnami/spark:$\x7bSPARK_VERSION:-3.5.0\x7d"
  , "    container_name: spark-worker"
  , "    environment:"
  , "      - SPARK_MODE=worker"
  , "      - SPARK_MASTER_URL=spark://spark-master:7077"
  , "      - SPARK_WORKER_MEMORY=$\x7bSPARK_WORKER_MEMORY:-2g\x7d"
  , "      - SPARK_WORKER_CORES=$\x7bSPARK_WORKER_CORES:-2\x7d"
  , "      - SPARK_RPC_AUTHENTICATION_ENABLED=no"
  , "      - SPARK_RPC_ENCRYPTION_ENABLED=no"
  , "      - SPARK_LOCAL_STORAGE_ENCRYPTION_ENABLED=no"
  , "      - SPARK_SSL_ENABLED=no"
  , "      - SPARK_USER=spark"
  , "    ports:"
  , "      - \"$\x7bSPARK_WORKER_UI_PORT:-8081\x7d:8081\""
  , "    volumes:"
  , "      - ../$\x7bNOTEBOOKS_PATH:-./notebooks\x7d:/opt/notebooks"
  , "      - ../$\x7bDATA_PATH:-./data\x7d:/opt/data"
  , "      - ../$\x7bDATA_PATH:-./data\x7d:/home/jovyan/data"
  , "    depends_on:"
  , "      - spark-master"
  , "    networks:"
  , "      - " ++ network_name
  , "    deploy:"
  , "      replicas: $\x7bSPARK_WORKER_INSTANCES:-1\x7d"
  , ""
  , "  jupyter:"
  , "    build: "
  , "      context: .."
  , "      dockerfile: docker/Dockerfile"
  , "      args:"
  , "        PYTHON_VERSION: $\x7bPYTHON_VERSION:-3.11\x7d"
  , "    container_name: jupyter-pyspark"
  , "    environment:"
  , "      - JUPYTER_ENABLE_LAB=yes"
  , "      - SPARK_MASTER_URL=spark://spark-master:7077"
  , "      - PYSPARK_SUBMIT_ARGS=--master spark://spark-master:7077 --executor-memory $\x7bSPARK_EXECUTOR_MEMORY:-1g\x7d --executor-cores $\x7bSPARK_EXECUTOR_CORES:-1\x7d pyspark-shell"
  , "    ports:"
  , "      - \"$\x7bJUPYTER_PORT:-8888\x7d:8888\""
  , "    volumes:"
  , "      - ../$\x7bNOTEBOOKS_PATH:-./notebooks\x7d:/home/jovyan/notebooks"
  , "      - ../$\x7bDATA_PATH:-./data\x7d:/home/jovyan/data"
  , "      - ../$\x7bDATA_PATH:-./data\x7d:/opt/data"
  , "    depends_on:"
  , "      - spark-master"
  , "      - spark-worker"
  , "    networks:"
  , "      - " ++ network_name
  , ""
  , "networks:"
  , "  " ++ network_name ++ ":"
  , "    driver: bridge"
  , ""
  , "volumes:"
  , "  notebooks:"
  , "  data:"
  ]

/-- Contents of `docker/docker-compose.yml`: the template lines joined by
newlines, with the template's trailing newline. -/
def compose_content (network_name : String) : String :=
  String.intercalate "\n" (composeLines network_name) ++ "\n"

/-- The string built (and then written) by `generate_docker_compose`:
`network_name = config[\x27network\x27][\x27name\x27]` substituted into the
fixed template. -/
def generate_compose_content (c : Yaml) : Except PyErr String := do
  let n ← c.getPath ["network", "name"]
  pure (compose_content n.render)

/-- Python `str.lstrip(\x27./\x27)`: removes ALL leading characters that
are `.` or `/` (the argument is a character set, not a prefix). -/
def pyLstripDotSlash (s : String) : String :=
  String.mk (s.data.dropWhile (fun c => c == '.' || c == '/'))

/-- Calling `.lstrip` on a loaded YAML value: only strings have the
method; ints and dicts raise `AttributeError`. -/
def asPyStr : Yaml → Except PyErr String
  | .str s => .ok s
  | .int _ => .error (.exc "\x27int\x27 object has no attribute \x27lstrip\x27")
  | .map _ => .error (.exc "\x27dict\x27 object has no attribute \x27lstrip\x27")

/-- The two directory paths computed by `create_directories` (lines
145-146): the `volumes` entries with `.lstrip(\x27./\x27)` applied, taken
relative to the repository root `base_dir`. -/
def dirTargets (c : Yaml) : Except PyErr (String × String) := do
  let nb ← asPyStr (← c.getPath ["volumes", "notebooks_path"])
  let da ← asPyStr (← c.getPath ["volumes", "data_path"])
  pure (pyLstripDotSlash nb, pyLstripDotSlash da)

/-- File-system state seen by the script, all paths relative to the
repository root. `configYaml` is the state of `config/config.yaml`:
absent, present but not valid YAML (with the parser's message), or
parsed. `dirs` lists the directories that exist. -/
structure FS where
  configYaml : Option (Except String Yaml)
  envFile : Option String
  composeFile : Option String
  dirs : List String

/-- `load_config`: `open` raises `FileNotFoundError` when the file is
absent; `yaml.safe_load` raises an ordinary exception on a parse error. -/
def load_config (fs : FS) : Except PyErr Yaml :=
  match fs.configYaml with
  | none => .error (.fileNotFound "config/config.yaml")
  | some (.error m) => .error (.exc m)
  | some (.ok y) => .ok y

/-- Split a character list at every occurrence of a separator (the
splitting underlying relative-path components). -/
def splitOnChar (c : Char) : List Char → List (List Char)
  | [] => [[]]
  | x :: xs =>
      match splitOnChar c xs, decide (x = c) with
      | r, true => [] :: r
      | [], false => [[x]]
      | h :: t, false => (x :: h) :: t

/-- The `/`-separated components of a relative path. -/
def pathParts (p : String) : List (List Char) :=
  splitOnChar '/' p.data

/-- Last path component, as `pathlib.Path.name` for the paths used here
(only feeds the final progress print). -/
def baseName (p : String) : String :=
  String.mk ((pathParts p).getLastD [])

/-- Components before the last `/`, if any: the parent directory that
`Path.mkdir` (without `parents=True`) requires to exist. `none` means the
parent is the repository root itself. -/
def parentOf (p : String) : Option String :=
  match pathParts p with
  | [] => none
  | [_] => none
  | parts => some (String.mk (List.intercalate ['/'] parts.dropLast))

/-- `Path.mkdir(exist_ok=True)`: no-op if the directory exists; creates
it if its parent exists; otherwise raises `FileNotFoundError`. -/
def mkdirExistOk (fs : FS) (p : String) : Except PyErr FS :=
  if p ∈ fs.dirs then .ok fs
  else
    match parentOf p with
    | none => .ok { fs with dirs := p :: fs.dirs }
    | some par =>
        if par ∈ fs.dirs then .ok { fs with dirs := p :: fs.dirs }
        else .error (.fileNotFound par)

/-- Observable actions of a run: console prints, file writes (path and
full contents; `open(..., \x27w\x27)` truncates, so a write replaces the
file), and successful `mkdir` calls. -/
inductive Event where
  | print : String → Event
  | writeFile : String → String → Event
  | mkdir : String → Event
deriving DecidableEq

/-- The console line printed by `main`'s `except` ladder:
`FileNotFoundError` gets the distinct "not found" message (whichever
operation raised it), every other exception is echoed as `❌ Error: ...`. -/
def errPrint : PyErr → Event
  | .fileNotFound _ =>
      .print "❌ config/config.yaml not found! Please create it first."
  | .exc m => .print ("❌ Error: " ++ m)

/-- The fixed block of prints at the end of a fully successful run. -/
def successTail : List Event :=
  [ .print "\n🎉 Setup complete! Run the following commands:"
  , .print "1. docker compose -f docker/docker-compose.yml --env-file config/.env up -d"
  , .print "2. Open http://localhost:8888 for Jupyter Lab"
  , .print "3. Open http://localhost:8080 for Spark Master UI"
  , .print "\n📝 To modify configuration:"
  , .print "1. Edit config/config.yaml"
  , .print "2. Run: python scripts/setup.py"
  , .print "3. Run: docker compose -f docker/docker-compose.yml --env-file config/.env up -d --build"
  , .print "\n📦 Python packages are read directly from config/config.yaml - no requirements.txt needed!"
  ]

/-- `main`: load the configuration, write `config/.env`, write
`docker/docker-compose.yml`, create the two directories — each step only
reached if the previous one did not raise; any raise is caught by the
`except` ladder, printed, and ends the run with no cleanup. Returns the
final file-system state and the trace of observable events in order. -/
def run (fs : FS) : FS × List Event :=
  let start := Event.print "🚀 Setting up Spark environment from config/config.yaml..."
  match load_config fs with
  | .error e => (fs, [start, errPrint e])
  | .ok c =>
    let loaded := Event.print "✅ Loaded config/config.yaml"
    match generate_env_content c with
    | .error e => (fs, [start, loaded, errPrint e])
    | .ok env =>
      let fs1 : FS := { fs with envFile := some env }
      let envEvs := [Event.writeFile "config/.env" env,
        Event.print "✅ Generated config/.env file"]
      match generate_compose_content c with
      | .error e => (fs1, [start, loaded] ++ envEvs ++ [errPrint e])
      | .ok comp =>
        let fs2 : FS := { fs1 with composeFile := some comp }
        let compEvs := [Event.writeFile "docker/docker-compose.yml" comp,
          Event.print "✅ Generated docker/docker-compose.yml"]
        match dirTargets c with
        | .error e => (fs2, [start, loaded] ++ envEvs ++ compEvs ++ [errPrint e])
        | .ok td =>
          match mkdirExistOk fs2 td.1 with
          | .error e =>
              (fs2, [start, loaded] ++ envEvs ++ compEvs ++ [errPrint e])
          | .ok fs3 =>
            match mkdirExistOk fs3 td.2 with
            | .error e =>
                (fs3, [start, loaded] ++ envEvs ++ compEvs ++
                  [Event.mkdir td.1, errPrint e])
            | .ok fs4 =>
                (fs4, [start, loaded] ++ envEvs ++ compEvs ++
                  [Event.mkdir td.1, Event.mkdir td.2,
                   Event.print ("✅ Created directories: " ++ baseName td.1 ++
                     ", " ++ baseName td.2)] ++ successTail)

/-! Observations on the generated texts, used to state the claims about
file contents. Both generated files are newline-joined line lists
(`envLines` / `composeLines`); when every substituted value is free of
newlines these lists are exactly the lines of the written file, so the
content claims are stated on the line lists. -/

/-- `KEY=value` entry carried by one line of the environment file:
comment lines (leading `#`) and blank lines carry none; otherwise the
key is everything before the first `=` and the value everything after
it. -/
def lineEntry (cs : List Char) : Option (String × String) :=
  match cs with
  | [] => none
  | c :: _ =>
      if c = '#' then none
      else
        match cs.dropWhile (fun ch => ch != '=') with
        | [] => none
        | _ :: val => some (String.mk (cs.takeWhile (fun ch => ch != '=')),
            String.mk val)

/-- All `KEY=value` entries of the generated environment file, in file
order. -/
def envEntries (v : EnvValues) : List (String × String) :=
  (envLines v).filterMap (fun l => lineEntry l.data)

/-- A value substituted into a template line is a plain single-line
scalar: not empty, no newline (so the line lists are exactly the file's
lines), and not starting with a space (so indentation is unchanged). -/
def plainScalar (s : String) : Prop :=
  s.data ≠ [] ∧ s.data.head? ≠ some ' ' ∧ '\n' ∉ s.data

/-- A top-level key line of the manifest: no indentation and not a
comment. In the template these are `services:`, `networks:` and
`volumes:`. -/
def isTopLine (l : String) : Bool :=
  match l.data with
  | [] => false
  | c :: _ => c != ' ' && c != '#'

/-- A block header directly under a top-level key: exactly two spaces of
indentation, then a name, ending with `:`. The three service blocks, the
network block and the two named volumes are these lines. -/
def isLevel1Key (l : String) : Bool :=
  match l.data with
  | ' ' :: ' ' :: c :: rest => c != ' ' && (c :: rest).getLast? == some ':'
  | _ => false

/-- The name of a block header line: strip the two-space indent and the
trailing `:`. -/
def level1KeyName (l : String) : String :=
  match l.data with
  | ' ' :: ' ' :: rest => String.mk rest.dropLast
  | _ => ""

/-- Names of the blocks declared under the given top-level section
header, scanning the lines in order; `inSec` records whether the scan is
currently inside that section. -/
def sectionKeys (header : String) : List String → Bool → List String
  | [], _ => []
  | l :: ls, inSec =>
      if isTopLine l then sectionKeys header ls (l == header)
      else if inSec && isLevel1Key l then
        level1KeyName l :: sectionKeys header ls inSec
      else sectionKeys header ls inSec

/-- Modelled from the spec: the spec (and claim C6) reads
"with a leading `./` stripped" as removing exactly the two-character
prefix `./` when present, for comparison with the code's
`lstrip(\x27./\x27)`. -/
def stripLeadingDotSlash (s : String) : String :=
  if s.data.take 2 = ['.', '/'] then String.mk (s.data.drop 2) else s

/-! Sample configurations and file-system states used by the concrete
witnesses below. -/

/-- A complete, well-formed sample configuration (the shape documented in
the data model: all sixteen scalar entries present). -/
def sampleConfig : Yaml :=
  .map (.cons "spark"
    (.map (.cons "version" (.str "3.5.0")
      (.cons "master" (.map (.cons "memory" (.str "2g")
        (.cons "cores" (.int 2) .nil)))
      (.cons "worker" (.map (.cons "memory" (.str "2g")
        (.cons "cores" (.int 2)
        (.cons "instances" (.int 1) .nil))))
      (.cons "executor" (.map (.cons "memory" (.str "1g")
        (.cons "cores" (.int 1) .nil)))
      .nil)))))
  (.cons "python" (.map (.cons "version" (.str "3.11") .nil))
  (.cons "containers"
    (.map (.cons "jupyter" (.map (.cons "port" (.int 8888) .nil))
      (.cons "spark_master" (.map (.cons "port" (.int 7077)
        (.cons "ui_port" (.int 8080) .nil)))
      (.cons "spark_worker" (.map (.cons "ui_port" (.int 8081) .nil))
      .nil))))
  (.cons "volumes"
    (.map (.cons "notebooks_path" (.str "./notebooks")
      (.cons "data_path" (.str "./data") .nil)))
  (.cons "network" (.map (.cons "name" (.str "spark-network") .nil))
  .nil)))))

/-- The sixteen rendered values of `sampleConfig`, in template order. -/
def sampleVals : EnvValues :=
  ⟨"3.5.0", "2g", "2", "2g", "2", "1", "1g", "1", "3.11",
   "8888", "8080", "7077", "8081", "./notebooks", "./data", "spark-network"⟩

/-- Fresh checkout state: configuration present and parsed, no generated
files, no data directories yet. -/
def sampleFS : FS :=
  { configYaml := some (.ok sampleConfig)
  , envFile := none
  , composeFile := none
  , dirs := [] }

/-- State with `config/config.yaml` absent and stale outputs present. -/
def absentConfigFS : FS :=
  { configYaml := none
  , envFile := some "OLD-ENV"
  , composeFile := some "OLD-COMPOSE"
  , dirs := ["notebooks"] }

/-- State whose configuration parsed to an empty mapping (every required
key missing), with stale outputs present. -/
def emptyConfigFS : FS :=
  { configYaml := some (.ok (.map .nil))
  , envFile := some "E"
  , composeFile := some "C"
  , dirs := [] }

/-- State whose `config/config.yaml` exists but fails YAML parsing. -/
def badParseFS : FS :=
  { configYaml := some (.error "mapping values are not allowed here")
  , envFile := some "E"
  , composeFile := some "C"
  , dirs := [] }

/-- The sixteen substituted values of the environment file in template
order, as a list. -/
def envValsList (v : EnvValues) : List String :=
  [v.sparkVersion, v.masterMemory, v.masterCores, v.workerMemory,
   v.workerCores, v.workerInstances, v.executorMemory, v.executorCores,
   v.pythonVersion, v.jupyterPort, v.masterUiPort, v.masterPort,
   v.workerUiPort, v.notebooksPath, v.dataPath, v.networkName]

/-- Well-formed substituted values: each is a single-line scalar string
(no embedded newline), so the template's line list is exactly the lines
of the written file. -/
def wellFormedVals (v : EnvValues) : Prop :=
  ∀ s ∈ envValsList v, '\n' ∉ s.data

/-- A run that fails during loading/parsing of the configuration or
during generation of either file — excluding the
missing-configuration-file case. -/
def failsLoadOrGen (fs : FS) : Prop :=
  match fs.configYaml with
  | none => False
  | some (Except.error _) => True
  | some (Except.ok c) =>
      (∃ e, generate_env_content c = Except.error e) ∨
      (∃ e, generate_compose_content c = Except.error e)

/-- Precondition under which one `Path.mkdir(exist_ok=True)` call
succeeds: the directory already exists, or its parent does. -/
def mkdirOkB (dirs : List String) (p : String) : Bool :=
  decide (p ∈ dirs) ||
    match parentOf p with
    | none => true
    | some par => decide (par ∈ dirs)

/-- Directory list after a successful `mkdir(exist_ok=True)`. -/
def newDirs (dirs : List String) (p : String) : List String :=
  if p ∈ dirs then dirs else p :: dirs

/-- A fully successful run: configuration present and parsed, all
sixteen substitutions evaluate, the volume paths are strings, and both
`mkdir` calls succeed. -/
def runOk (fs : FS) : Bool :=
  match fs.configYaml with
  | some (Except.ok c) =>
      match extractValues c, dirTargets c with
      | .ok _, .ok td =>
          mkdirOkB fs.dirs td.1 && mkdirOkB (newDirs fs.dirs td.1) td.2
      | _, _ => false
  | _ => false

/-! Helper lemmas. -/

/-- A failing subscript raises `KeyError` or `TypeError`, never
`FileNotFoundError`. -/
lemma getKey_error_exc (y : Yaml) (k : String) (e : PyErr)
    (h : y.getKey k = .error e) : ∃ m, e = .exc m := by
  cases y with
  | str s => simp [Yaml.getKey] at h; exact ⟨_, h.symm⟩
  | int n => simp [Yaml.getKey] at h; exact ⟨_, h.symm⟩
  | map mm =>
      simp only [Yaml.getKey] at h
      rcases hf : mm.find? k with _ | v <;> rw [hf] at h <;> simp at h
      exact ⟨_, h.symm⟩

/-- A failing subscript chain raises `KeyError` or `TypeError`, never
`FileNotFoundError`. -/
lemma getPath_error_exc (ps : List String) (y : Yaml) (e : PyErr)
    (h : y.getPath ps = .error e) : ∃ m, e = .exc m := by
  induction ps generalizing y with
  | nil => simp [Yaml.getPath] at h
  | cons k ks ih =>
      rw [Yaml.getPath] at h
      rcases hk : y.getKey k with e' | v <;> rw [hk] at h
      · simp at h
        exact h ▸ getKey_error_exc y k e' hk
      · exact ih v h

/-- Splitting a successful `Except` bind. -/
lemma except_bind_ok {α β : Type} {x : Except PyErr α} {f : α → Except PyErr β}
    {b : β} (h : (x >>= f) = .ok b) : ∃ a, x = .ok a ∧ f a = .ok b := by
  cases x with
  | error e => simp [Bind.bind, Except.bind] at h
  | ok a => exact ⟨a, rfl, by simpa [Bind.bind, Except.bind] using h⟩

/-- Splitting a failing `Except` bind. -/
lemma except_bind_error_cases {α β : Type} {x : Except PyErr α}
    {f : α → Except PyErr β} {e : PyErr} (h : (x >>= f) = .error e) :
    x = .error e ∨ ∃ a, x = .ok a ∧ f a = .error e := by
  cases x with
  | error e2 => simp_all [Bind.bind, Except.bind]
  | ok a => right; exact ⟨a, rfl, by simpa [Bind.bind, Except.bind] using h⟩

/-- If the `.env` template evaluated completely then every one of the
sixteen required configuration paths is present. -/
lemma extract_ok_paths (c : Yaml) (v : EnvValues) (h : extractValues c = .ok v) :
    ∀ p ∈ requiredPaths, ∃ u, c.getPath p = .ok u := by
  unfold extractValues at h
  obtain ⟨y1, h1, h⟩ := except_bind_ok h
  obtain ⟨y2, h2, h⟩ := except_bind_ok h
  obtain ⟨y3, h3, h⟩ := except_bind_ok h
  obtain ⟨y4, h4, h⟩ := except_bind_ok h
  obtain ⟨y5, h5, h⟩ := except_bind_ok h
  obtain ⟨y6, h6, h⟩ := except_bind_ok h
  obtain ⟨y7, h7, h⟩ := except_bind_ok h
  obtain ⟨y8, h8, h⟩ := except_bind_ok h
  obtain ⟨y9, h9, h⟩ := except_bind_ok h
  obtain ⟨y10, h10, h⟩ := except_bind_ok h
  obtain ⟨y11, h11, h⟩ := except_bind_ok h
  obtain ⟨y12, h12, h⟩ := except_bind_ok h
  obtain ⟨y13, h13, h⟩ := except_bind_ok h
  obtain ⟨y14, h14, h⟩ := except_bind_ok h
  obtain ⟨y15, h15, h⟩ := except_bind_ok h
  obtain ⟨y16, h16, h⟩ := except_bind_ok h
  intro p hp
  simp only [requiredPaths, List.mem_cons, List.not_mem_nil, or_false] at hp
  rcases hp with rfl | rfl | rfl | rfl | rfl | rfl | rfl | rfl | rfl | rfl | rfl | rfl | rfl | rfl | rfl | rfl
  exacts [⟨y1, h1⟩, ⟨y2, h2⟩, ⟨y3, h3⟩, ⟨y4, h4⟩, ⟨y5, h5⟩, ⟨y6, h6⟩, ⟨y7, h7⟩,
    ⟨y8, h8⟩, ⟨y9, h9⟩, ⟨y10, h10⟩, ⟨y11, h11⟩, ⟨y12, h12⟩, ⟨y13, h13⟩,
    ⟨y14, h14⟩, ⟨y15, h15⟩, ⟨y16, h16⟩]

/-- A failing `.env` template evaluation failed in one of its subscript
chains, so the raised exception is never a `FileNotFoundError`. -/
lemma extract_error_exc (c : Yaml) (e : PyErr) (h : extractValues c = .error e) :
    ∃ m, e = .exc m := by
  unfold extractValues at h
  rcases except_bind_error_cases h with h1 | ⟨y1, -, h⟩
  · exact getPath_error_exc _ _ _ h1
  rcases except_bind_error_cases h with h2 | ⟨y2, -, h⟩
  · exact getPath_error_exc _ _ _ h2
  rcases except_bind_error_cases h with h3 | ⟨y3, -, h⟩
  · exact getPath_error_exc _ _ _ h3
  rcases except_bind_error_cases h with h4 | ⟨y4, -, h⟩
  · exact getPath_error_exc _ _ _ h4
  rcases except_bind_error_cases h with h5 | ⟨y5, -, h⟩
  · exact getPath_error_exc _ _ _ h5
  rcases except_bind_error_cases h with h6 | ⟨y6, -, h⟩
  · exact getPath_error_exc _ _ _ h6
  rcases except_bind_error_cases h with h7 | ⟨y7, -, h⟩
  · exact getPath_error_exc _ _ _ h7
  rcases except_bind_error_cases h with h8 | ⟨y8, -, h⟩
  · exact getPath_error_exc _ _ _ h8
  rcases except_bind_error_cases h with h9 | ⟨y9, -, h⟩
  · exact getPath_error_exc _ _ _ h9
  rcases except_bind_error_cases h with h10 | ⟨y10, -, h⟩
  · exact getPath_error_exc _ _ _ h10
  rcases except_bind_error_cases h with h11 | ⟨y11, -, h⟩
  · exact getPath_error_exc _ _ _ h11
  rcases except_bind_error_cases h with h12 | ⟨y12, -, h⟩
  · exact getPath_error_exc _ _ _ h12
  rcases except_bind_error_cases h with h13 | ⟨y13, -, h⟩
  · exact getPath_error_exc _ _ _ h13
  rcases except_bind_error_cases h with h14 | ⟨y14, -, h⟩
  · exact getPath_error_exc _ _ _ h14
  rcases except_bind_error_cases h with h15 | ⟨y15, -, h⟩
  · exact getPath_error_exc _ _ _ h15
  rcases except_bind_error_cases h with h16 | ⟨y16, -, h⟩
  · exact getPath_error_exc _ _ _ h16
  simp [Pure.pure, Except.pure] at h

/-- A successful `mkdir` call never touches the configuration or the two
generated files. -/
lemma mkdirExistOk_preserves {fs fs' : FS} {p : String}
    (h : mkdirExistOk fs p = .ok fs') :
    fs'.configYaml = fs.configYaml ∧ fs'.envFile = fs.envFile ∧
    fs'.composeFile = fs.composeFile := by
  unfold mkdirExistOk at h
  split at h
  · cases h; exact ⟨rfl, rfl, rfl⟩
  · split at h
    · cases h; exact ⟨rfl, rfl, rfl⟩
    · split at h
      · cases h; exact ⟨rfl, rfl, rfl⟩
      · cases h

/-- `mkdir(exist_ok=True)` succeeds under `mkdirOkB` and the directory
list becomes `newDirs`. -/
lemma mkdirExistOk_ok (fs : FS) (p : String) (h : mkdirOkB fs.dirs p = true) :
    mkdirExistOk fs p = .ok { fs with dirs := newDirs fs.dirs p } := by
  unfold mkdirOkB at h
  unfold mkdirExistOk newDirs
  by_cases hp : p ∈ fs.dirs
  · simp [hp]
  · simp only [hp, decide_eq_true_eq, Bool.false_or, decide_False] at h
    rcases hpar : parentOf p with _ | par
    · simp [hp, hpar]
    · rw [hpar] at h
      simp only [decide_eq_true_eq] at h
      simp [hp, hpar, h]

/-- What one run does to the three files: the configuration is never
touched; `config/.env` is replaced by the generated content exactly when
generation succeeds; `docker/docker-compose.yml` is replaced exactly when
both generations succeed. -/
lemma run_files (fs : FS) :
    (run fs).1.configYaml = fs.configYaml ∧
    (run fs).1.envFile =
      (match fs.configYaml with
       | some (Except.ok c) =>
           (match generate_env_content c with
            | .ok e => some e
            | .error _ => fs.envFile)
       | _ => fs.envFile) ∧
    (run fs).1.composeFile =
      (match fs.configYaml with
       | some (Except.ok c) =>
           (match generate_env_content c, generate_compose_content c with
            | .ok _, .ok m => some m
            | _, _ => fs.composeFile)
       | _ => fs.composeFile) := by
  unfold run load_config
  rcases hcy : fs.configYaml with _ | pf
  · simp [hcy]
  rcases pf with m | c
  · simp [hcy]
  simp only [hcy]
  rcases henv : generate_env_content c with e | env
  · simp [henv, hcy]
  simp only [henv]
  rcases hcomp : generate_compose_content c with e | comp
  · simp [hcomp, hcy]
  simp only [hcomp]
  rcases hdt : dirTargets c with e | td
  · simp [hdt, hcy]
  simp only [hdt]
  rcases hm1 : mkdirExistOk
      { configYaml := some (Except.ok c), envFile := some env,
        composeFile := some comp, dirs := fs.dirs } td.1 with e | fs3
  · simp [hm1, hcy]
  simp only [hm1]
  obtain ⟨h1, h2, h3⟩ := mkdirExistOk_preserves hm1
  rcases hm2 : mkdirExistOk fs3 td.2 with e | fs4
  · simp [hm2, hcy, h1, h2, h3]
  obtain ⟨g1, g2, g3⟩ := mkdirExistOk_preserves hm2
  simp [hm2, hcy, g1, g2, g3, h1, h2, h3]

/-- Scanning the empty document yields no blocks. -/
lemma sectionKeys_nil (hd : String) (b : Bool) : sectionKeys hd [] b = [] := rfl

/-- Scanning: the section's own header line switches the scan on. -/
lemma sectionKeys_top_eq {l hd : String} (ls : List String) (b : Bool)
    (h : isTopLine l = true) (he : l = hd) :
    sectionKeys hd (l :: ls) b = sectionKeys hd ls true := by
  subst he; simp [sectionKeys, h]

/-- Scanning: a different top-level header switches the scan off. -/
lemma sectionKeys_top_ne {l hd : String} (ls : List String) (b : Bool)
    (h : isTopLine l = true) (he : ¬ (l = hd)) :
    sectionKeys hd (l :: ls) b = sectionKeys hd ls false := by
  have hb : (l == hd) = false := beq_eq_false_iff_ne.mpr he
  simp [sectionKeys, h, hb]

/-- Scanning: a block header inside the section is collected. -/
lemma sectionKeys_key {l : String} (hd : String) (ls : List String)
    (h1 : isTopLine l = false) (h2 : isLevel1Key l = true) :
    sectionKeys hd (l :: ls) true =
      level1KeyName l :: sectionKeys hd ls true := by
  simp [sectionKeys, h1, h2]

/-- Scanning: outside the section, non-header lines are skipped. -/
lemma sectionKeys_skip_out {l : String} (hd : String) (ls : List String)
    (h1 : isTopLine l = false) :
    sectionKeys hd (l :: ls) false = sectionKeys hd ls false := by
  simp [sectionKeys, h1]

/-- Scanning: inside the section, deeper-indented or blank lines are
skipped. -/
lemma sectionKeys_skip_in {l : String} (hd : String) (ls : List String)
    (h1 : isTopLine l = false) (h2 : isLevel1Key l = false) :
    sectionKeys hd (l :: ls) true = sectionKeys hd ls true := by
  simp [sectionKeys, h1, h2]

/-! Theorems for the claims. -/

/-- C3: with `config/config.yaml` absent, the run changes nothing on
disk, prints the start line and the distinct "not found" message, and
terminates cleanly (the exception is caught; `run` is total). -/
theorem config_absent_clean_exit (fs : FS) (h : fs.configYaml = none) :
    (run fs).1 = fs ∧
    (run fs).2 =
      [Event.print "🚀 Setting up Spark environment from config/config.yaml...",
       Event.print "❌ config/config.yaml not found! Please create it first."] := by
  simp [run, load_config, h, errPrint]

/-- Witness for C3 at a concrete state with both output files present:
they are untouched. -/
theorem config_absent_clean_exit_witness :
    (run absentConfigFS).1 = absentConfigFS ∧
    (run absentConfigFS).2 =
      [Event.print "🚀 Setting up Spark environment from config/config.yaml...",
       Event.print "❌ config/config.yaml not found! Please create it first."] :=
  config_absent_clean_exit absentConfigFS rfl

/-- C6 counterexample: for `notebooks_path = ".hidden"` the program
creates `hidden` (Python `lstrip` removes every leading `.`/`/`
character), while stripping exactly a leading `./` prefix would leave
`.hidden`; the claim is false as stated. -/
theorem lstrip_not_prefix_strip :
    dirTargets (.map (.cons "volumes"
      (.map (.cons "notebooks_path" (.str ".hidden")
        (.cons "data_path" (.str "./data") .nil))) .nil)) =
      .ok ("hidden", "data") ∧
    stripLeadingDotSlash ".hidden" = ".hidden" ∧
    ("hidden" : String) ≠ ".hidden" :=
  ⟨by decide, by decide, by decide⟩

/-- C6 (amended): the directories are created, relative to the
repository root, at the `volumes` paths with ALL leading `.` and `/`
characters removed — Python `lstrip(\x27./\x27)` char-set semantics, not
a one-time `./` prefix strip. -/
theorem dir_targets_lstrip (c : Yaml) (s1 s2 : String)
    (h1 : c.getPath ["volumes", "notebooks_path"] = .ok (.str s1))
    (h2 : c.getPath ["volumes", "data_path"] = .ok (.str s2)) :
    dirTargets c = .ok (pyLstripDotSlash s1, pyLstripDotSlash s2) := by
  simp [dirTargets, h1, h2, asPyStr, Bind.bind, Except.bind,
    Functor.map, Except.map, Pure.pure, Except.pure]

/-- Witness for the amended C6 on the sample configuration. -/
theorem dir_targets_lstrip_witness :
    dirTargets sampleConfig =
      .ok (pyLstripDotSlash "./notebooks", pyLstripDotSlash "./data") :=
  dir_targets_lstrip sampleConfig "./notebooks" "./data" (by decide) (by decide)

/-- C7: when both target directories already exist, each `mkdir`
call of the directory-creation step returns without error and leaves the
file-system state exactly as it was. -/
theorem mkdir_existing_noop (fs : FS) (c : Yaml) (t1 t2 : String)
    (_ht : dirTargets c = .ok (t1, t2))
    (h1 : t1 ∈ fs.dirs) (h2 : t2 ∈ fs.dirs) :
    mkdirExistOk fs t1 = .ok fs ∧ mkdirExistOk fs t2 = .ok fs := by
  constructor <;> simp [mkdirExistOk, h1, h2]

/-- Witness for C7: sample configuration, both directories present. -/
theorem mkdir_existing_noop_witness :
    mkdirExistOk { sampleFS with dirs := ["notebooks", "data"] } "notebooks" =
      .ok { sampleFS with dirs := ["notebooks", "data"] } ∧
    mkdirExistOk { sampleFS with dirs := ["notebooks", "data"] } "data" =
      .ok { sampleFS with dirs := ["notebooks", "data"] } :=
  mkdir_existing_noop _ sampleConfig "notebooks" "data" (by decide)
    (by decide) (by decide)

/-- C9: the manifest text is a function of `network.name` alone — two
configurations whose `network.name` renders identically produce
identical manifests, whatever their other entries; every other
`$\x7bVAR:-default\x7d` in the template is literal text. -/
theorem compose_depends_only_on_network_name (c1 c2 : Yaml) (y1 y2 : Yaml)
    (h1 : c1.getPath ["network", "name"] = .ok y1)
    (h2 : c2.getPath ["network", "name"] = .ok y2)
    (he : y1.render = y2.render) :
    generate_compose_content c1 = generate_compose_content c2 := by
  simp [generate_compose_content, h1, h2, he]

/-- Witness for C9: the full sample configuration and a configuration
containing nothing but the same network name yield the same manifest. -/
theorem compose_depends_only_on_network_name_witness :
    generate_compose_content sampleConfig =
      generate_compose_content
        (.map (.cons "network" (.map (.cons "name" (.str "spark-network") .nil))
          .nil)) :=
  compose_depends_only_on_network_name _ _ (.str "spark-network")
    (.str "spark-network") (by decide) (by decide) rfl

/-- C1 counterexample: the environment file generated from a complete,
well-formed configuration has sixteen `KEY=value` entries, not the
fourteen the claim states. -/
theorem env_entries_not_fourteen :
    extractValues sampleConfig = .ok sampleVals ∧
    (envEntries sampleVals).length = 16 ∧
    (envEntries sampleVals).length ≠ 14 :=
  ⟨by decide, by decide, by decide⟩

/-- C1 (amended): for every complete, well-formed configuration the
generated environment file consists of exactly the SIXTEEN documented
`KEY=value` entries, each value the string form of the corresponding
configuration entry copied verbatim — no escaping, quoting or
validation. -/
theorem env_entries_sixteen_verbatim (c : Yaml) (v : EnvValues)
    (h : extractValues c = .ok v) (_hwf : wellFormedVals v) :
    generate_env_content c = .ok (env_content v) ∧
    envEntries v =
      [("SPARK_VERSION", v.sparkVersion),
       ("SPARK_MASTER_MEMORY", v.masterMemory),
       ("SPARK_MASTER_CORES", v.masterCores),
       ("SPARK_WORKER_MEMORY", v.workerMemory),
       ("SPARK_WORKER_CORES", v.workerCores),
       ("SPARK_WORKER_INSTANCES", v.workerInstances),
       ("SPARK_EXECUTOR_MEMORY", v.executorMemory),
       ("SPARK_EXECUTOR_CORES", v.executorCores),
       ("PYTHON_VERSION", v.pythonVersion),
       ("JUPYTER_PORT", v.jupyterPort),
       ("SPARK_MASTER_UI_PORT", v.masterUiPort),
       ("SPARK_MASTER_PORT", v.masterPort),
       ("SPARK_WORKER_UI_PORT", v.workerUiPort),
       ("NOTEBOOKS_PATH", v.notebooksPath),
       ("DATA_PATH", v.dataPath),
       ("NETWORK_NAME", v.networkName)] :=
  ⟨by simp [generate_env_content, h, Except.map], rfl⟩

/-- Witness for the amended C1 on the sample configuration. -/
theorem env_entries_sixteen_verbatim_witness :
    generate_env_content sampleConfig = .ok (env_content sampleVals) ∧
    envEntries sampleVals =
      [("SPARK_VERSION", sampleVals.sparkVersion),
       ("SPARK_MASTER_MEMORY", sampleVals.masterMemory),
       ("SPARK_MASTER_CORES", sampleVals.masterCores),
       ("SPARK_WORKER_MEMORY", sampleVals.workerMemory),
       ("SPARK_WORKER_CORES", sampleVals.workerCores),
       ("SPARK_WORKER_INSTANCES", sampleVals.workerInstances),
       ("SPARK_EXECUTOR_MEMORY", sampleVals.executorMemory),
       ("SPARK_EXECUTOR_CORES", sampleVals.executorCores),
       ("PYTHON_VERSION", sampleVals.pythonVersion),
       ("JUPYTER_PORT", sampleVals.jupyterPort),
       ("SPARK_MASTER_UI_PORT", sampleVals.masterUiPort),
       ("SPARK_MASTER_PORT", sampleVals.masterPort),
       ("SPARK_WORKER_UI_PORT", sampleVals.workerUiPort),
       ("NOTEBOOKS_PATH", sampleVals.notebooksPath),
       ("DATA_PATH", sampleVals.dataPath),
       ("NETWORK_NAME", sampleVals.networkName)] :=
  env_entries_sixteen_verbatim sampleConfig sampleVals (by decide)
    (by unfold wellFormedVals envValsList; decide)

/-- C2: if any one of the sixteen required keys is missing, the `.env`
template raises before anything is opened for writing, so the run aborts
with an error print and neither `config/.env` nor
`docker/docker-compose.yml` is written (no defaulting anywhere). -/
theorem missing_key_aborts_without_writes (fs : FS) (c : Yaml)
    (p : List String) (e : PyErr)
    (hc : fs.configYaml = some (.ok c))
    (hp : p ∈ requiredPaths)
    (hmiss : c.getPath p = .error e) :
    (∃ m, generate_env_content c = .error m) ∧
    (run fs).1 = fs ∧
    (run fs).1.envFile = fs.envFile ∧
    (run fs).1.composeFile = fs.composeFile := by
  rcases hx : extractValues c with e2 | v2
  · have hge : generate_env_content c = .error e2 := by
      simp [generate_env_content, hx, Except.map]
    have hrun : (run fs).1 = fs := by simp [run, load_config, hc, hge]
    exact ⟨⟨e2, hge⟩, hrun, by rw [hrun], by rw [hrun]⟩
  · obtain ⟨u, hu⟩ := extract_ok_paths c v2 hx p hp
    rw [hmiss] at hu
    exact Except.noConfusion hu

/-- Witness for C2: a configuration missing the whole `spark` section;
the pre-existing output files are untouched. -/
theorem missing_key_aborts_without_writes_witness :
    (∃ m, generate_env_content (.map .nil) = .error m) ∧
    (run emptyConfigFS).1 = emptyConfigFS ∧
    (run emptyConfigFS).1.envFile = emptyConfigFS.envFile ∧
    (run emptyConfigFS).1.composeFile = emptyConfigFS.composeFile :=
  missing_key_aborts_without_writes emptyConfigFS (.map .nil)
    ["spark", "version"] (.exc "\x27spark\x27") rfl (by decide) (by decide)

/-- C8: any failure while parsing the configuration or generating either
file (other than the missing-file case) is caught: the run ends with the
failure's message printed as the last console line, nothing written in
the failing run is rolled back (in these cases nothing was written at
all, and the state is untouched), and the process ends normally. -/
theorem load_gen_failure_reported_no_cleanup (fs : FS)
    (h : failsLoadOrGen fs) :
    (run fs).1 = fs ∧
    ∃ m, (run fs).2.getLast? = some (Event.print ("❌ Error: " ++ m)) := by
  rcases hcy : fs.configYaml with _ | pf
  · simp only [failsLoadOrGen, hcy] at h
  rcases pf with m | c
  · refine ⟨?_, m, ?_⟩ <;> simp [run, load_config, hcy, errPrint]
  simp only [failsLoadOrGen, hcy] at h
  have henv : ∃ m, extractValues c = .error (.exc m) := by
    rcases h with ⟨e, he⟩ | ⟨e, he⟩
    · rcases hx : extractValues c with e2 | v2
      · obtain ⟨m, hm⟩ := extract_error_exc c e2 hx
        exact ⟨m, by rw [hm]⟩
      · rw [generate_env_content, hx] at he
        simp [Except.map] at he
    · rcases hn : c.getPath ["network", "name"] with e3 | yn
      · rcases hx : extractValues c with e2 | v2
        · obtain ⟨m, hm⟩ := extract_error_exc c e2 hx
          exact ⟨m, by rw [hm]⟩
        · obtain ⟨u, hu⟩ :=
            extract_ok_paths c v2 hx ["network", "name"] (by decide)
          rw [hn] at hu
          exact Except.noConfusion hu
      · simp [generate_compose_content, hn, Bind.bind, Except.bind,
          Pure.pure, Except.pure] at he
  obtain ⟨m, hx⟩ := henv
  have hge : generate_env_content c = .error (.exc m) := by
    simp [generate_env_content, hx, Except.map]
  refine ⟨?_, m, ?_⟩ <;> simp [run, load_config, hcy, hge, errPrint]

/-- Witness for C8: a present but malformed `config/config.yaml`; the
parser message is echoed and the pre-existing outputs stay in place. -/
theorem load_gen_failure_reported_no_cleanup_witness :
    (run badParseFS).1 = badParseFS ∧
    ∃ m, (run badParseFS).2.getLast? =
      some (Event.print ("❌ Error: " ++ m)) :=
  load_gen_failure_reported_no_cleanup badParseFS trivial

/-- C4: generation is a deterministic function of the configuration
alone — running the generator again on the unchanged configuration leaves
byte-identical contents in both output files, whatever the starting
state and wherever the first run stopped. -/
theorem rerun_byte_identical (fs : FS) :
    (run ((run fs).1)).1.envFile = (run fs).1.envFile ∧
    (run ((run fs).1)).1.composeFile = (run fs).1.composeFile := by
  obtain ⟨a1, a2, a3⟩ := run_files fs
  obtain ⟨b1, b2, b3⟩ := run_files ((run fs).1)
  rw [b2, b3, a1]
  rcases hcy : fs.configYaml with _ | pf
  · simp [a2, a3, hcy]
  rcases pf with m | c
  · simp [a2, a3, hcy]
  rcases henv : generate_env_content c with e | env <;>
    rcases hcomp : generate_compose_content c with e2 | comp <;>
      simp [a2, a3, hcy, henv, hcomp]

/-- C5: for a complete configuration whose network name is a plain
single-line scalar, the generated manifest has exactly three service
blocks — `spark-master`, `spark-worker`, `jupyter` — and exactly one
network block, whose name is the configuration's `network.name`. -/
theorem compose_three_services_one_network (c : Yaml) (n : String)
    (hn : c.getPath ["network", "name"] = .ok (.str n))
    (hp : plainScalar n) :
    generate_compose_content c = .ok (compose_content n) ∧
    sectionKeys "services:" (composeLines n) false =
      ["spark-master", "spark-worker", "jupyter"] ∧
    sectionKeys "networks:" (composeLines n) false = [n] := by
  obtain ⟨hne, hhead, hnl⟩ := hp
  rcases hd : n.data with _ | ⟨c0, t⟩
  · exact absurd hd hne
  have hc0 : c0 ≠ ' ' := by
    rw [hd] at hhead
    simp only [List.head?_cons, ne_eq, Option.some.injEq] at hhead
    exact hhead
  have hA : isTopLine ("      - " ++ n) = false := rfl
  have hB : isLevel1Key ("      - " ++ n) = false := rfl
  have hC : isTopLine ("  " ++ n ++ ":") = false := rfl
  have hshape : ("  " ++ n ++ ":").data = ' ' :: ' ' :: (n.data ++ [':']) := rfl
  have hD : isLevel1Key ("  " ++ n ++ ":") = true := by
    unfold isLevel1Key
    rw [hshape, hd]
    simp only [List.cons_append]
    rw [← List.cons_append, List.getLast?_concat]
    simp [hc0]
  have hE : level1KeyName ("  " ++ n ++ ":") = n := by
    have hred : level1KeyName ("  " ++ n ++ ":") =
        String.mk ((n.data ++ [':']).dropLast) := rfl
    rw [hred, List.dropLast_concat]
  refine ⟨?_, ?_, ?_⟩
  · simp [generate_compose_content, hn, Yaml.render, Bind.bind, Except.bind,
      Pure.pure, Except.pure]
  · simp only [composeLines]
    simp (disch := first | assumption | decide) only
      [sectionKeys_nil, sectionKeys_top_eq, sectionKeys_top_ne, sectionKeys_key,
       sectionKeys_skip_out, sectionKeys_skip_in, hE]
    all_goals decide
  · simp only [composeLines]
    simp (disch := first | assumption | decide) only
      [sectionKeys_nil, sectionKeys_top_eq, sectionKeys_top_ne, sectionKeys_key,
       sectionKeys_skip_out, sectionKeys_skip_in, hE]

/-- Witness for C5 on the sample configuration. -/
theorem compose_three_services_one_network_witness :
    generate_compose_content sampleConfig =
      .ok (compose_content "spark-network") ∧
    sectionKeys "services:" (composeLines "spark-network") false =
      ["spark-master", "spark-worker", "jupyter"] ∧
    sectionKeys "networks:" (composeLines "spark-network") false =
      ["spark-network"] :=
  compose_three_services_one_network sampleConfig "spark-network" (by decide)
    ⟨by decide, by decide, by decide⟩

/-- C10: every fully successful run produces exactly this ordered trace:
load, write `config/.env`, write `docker/docker-compose.yml`, create the
two directories, final prints — the environment file is completely
written before the manifest, and no directory is touched before both
files are written. -/
theorem run_step_order (fs : FS) (h : runOk fs = true) :
    ∃ env comp t1 t2,
      (run fs).2 =
        [Event.print "🚀 Setting up Spark environment from config/config.yaml...",
         Event.print "✅ Loaded config/config.yaml",
         Event.writeFile "config/.env" env,
         Event.print "✅ Generated config/.env file",
         Event.writeFile "docker/docker-compose.yml" comp,
         Event.print "✅ Generated docker/docker-compose.yml",
         Event.mkdir t1, Event.mkdir t2,
         Event.print ("✅ Created directories: " ++ baseName t1 ++ ", " ++
           baseName t2)] ++ successTail := by
  unfold runOk at h
  rcases hcy : fs.configYaml with _ | pf
  · rw [hcy] at h; simp at h
  rcases pf with m | c
  · rw [hcy] at h; simp at h
  rw [hcy] at h
  simp at h
  rcases hx : extractValues c with e | v <;> rw [hx] at h
  · simp at h
  rcases hdt : dirTargets c with e | td <;> rw [hdt] at h
  · simp at h
  simp only [Bool.and_eq_true] at h
  obtain ⟨h1, h2⟩ := h
  have hge : generate_env_content c = .ok (env_content v) := by
    simp [generate_env_content, hx, Except.map]
  obtain ⟨yn, hyn⟩ := extract_ok_paths c v hx ["network", "name"] (by decide)
  have hgc : generate_compose_content c = .ok (compose_content yn.render) := by
    simp [generate_compose_content, hyn, Bind.bind, Except.bind, Pure.pure,
      Except.pure]
  have hm1 : mkdirExistOk
      { configYaml := some (Except.ok c)
      , envFile := some (env_content v)
      , composeFile := some (compose_content yn.render)
      , dirs := fs.dirs } td.1 =
      Except.ok
      { configYaml := some (Except.ok c)
      , envFile := some (env_content v)
      , composeFile := some (compose_content yn.render)
      , dirs := newDirs fs.dirs td.1 } :=
    mkdirExistOk_ok _ td.1 h1
  have hm2 : mkdirExistOk
      { configYaml := some (Except.ok c)
      , envFile := some (env_content v)
      , composeFile := some (compose_content yn.render)
      , dirs := newDirs fs.dirs td.1 } td.2 =
      Except.ok
      { configYaml := some (Except.ok c)
      , envFile := some (env_content v)
      , composeFile := some (compose_content yn.render)
      , dirs := newDirs (newDirs fs.dirs td.1) td.2 } :=
    mkdirExistOk_ok _ td.2 h2
  refine ⟨env_content v, compose_content yn.render, td.1, td.2, ?_⟩
  simp [run, load_config, hcy, hge, hgc, hdt, hm1, hm2]

/-- Witness for C10: a fresh checkout with the sample configuration runs
to completion in the stated order. -/
theorem run_step_order_witness :
    runOk sampleFS = true ∧
    ∃ env comp t1 t2,
      (run sampleFS).2 =
        [Event.print "🚀 Setting up Spark environment from config/config.yaml...",
         Event.print "✅ Loaded config/config.yaml",
         Event.writeFile "config/.env" env,
         Event.print "✅ Generated config/.env file",
         Event.writeFile "docker/docker-compose.yml" comp,
         Event.print "✅ Generated docker/docker-compose.yml",
         Event.mkdir t1, Event.mkdir t2,
         Event.print ("✅ Created directories: " ++ baseName t1 ++ ", " ++
           baseName t2)] ++ successTail :=
  ⟨by decide, run_step_order sampleFS (by decide)⟩

end SparkSetup
